import Mathlib

/-
  A verification development for the symbol placement engine of a tiled
  vector-map renderer (source file: src/symbol/placement.js).

  The engine is embedded shallowly:
  * pure value classes (OpacityState, JointOpacityState, JointPlacement,
    CollisionGroups) become Lean structures with constructor functions;
  * JavaScript objects used as string/number keyed dictionaries become
    association lists with first-match lookup (mget) and shadowing
    insert (mset), matching object lookup semantics;
  * float opacities and times become rationals;
  * the external collaborators named in the spec (CollisionIndex
    geometry tests, the projection module, text shaping helpers that
    live outside this file) are oracle parameters collected in Env;
  * effects that the code performs through external modules (warnOnce,
    collision queries) are recorded in an explicit log.
-/

/-- First-match lookup in an association list, the semantics of reading a
JavaScript object property. -/
def mget {κ α : Type} [DecidableEq κ] : List (κ × α) → κ → Option α
  | [], _ => none
  | (k1, v) :: rest, k => if k1 = k then some v else mget rest k

/-- Insert by shadowing, the semantics of writing a JavaScript object
property as observed through mget. -/
def mset {κ α : Type} (m : List (κ × α)) (k : κ) (v : α) : List (κ × α) :=
  (k, v) :: m

/-- OpacityState (placement.js lines 24-38): per label part fade value plus
placed flag. -/
structure OpacityState where
  opacity : ℚ
  placed : Bool
deriving DecidableEq

/-- The OpacityState constructor. With a previous state the new opacity is
clamp(prev.opacity + (prev.placed ? increment : -increment), 0, 1); without
one it is 1 when skipFade and placed hold, else 0. -/
def mkOpacityState (prevState : Option OpacityState) (increment : ℚ)
    (placed : Bool) (skipFade : Bool) : OpacityState :=
  match prevState with
  | some prev =>
    ⟨max 0 (min 1 (prev.opacity + (if prev.placed then increment else -increment))), placed⟩
  | none =>
    ⟨if skipFade && placed then 1 else 0, placed⟩

/-- isHidden: opacity is exactly zero and the part is not placed. -/
def OpacityState.isHidden (st : OpacityState) : Bool :=
  st.opacity == 0 && !st.placed

/-- JointOpacityState (lines 40-50): text and icon fade state for one label. -/
structure JointOpacityState where
  text : OpacityState
  icon : OpacityState
deriving DecidableEq

/-- The JointOpacityState constructor: both parts advance with the same
increment and skipFade. -/
def mkJointOpacityState (prevState : Option JointOpacityState) (increment : ℚ)
    (placedText placedIcon : Bool) (skipFade : Bool) : JointOpacityState :=
  ⟨mkOpacityState (prevState.map JointOpacityState.text) increment placedText skipFade,
   mkOpacityState (prevState.map JointOpacityState.icon) increment placedIcon skipFade⟩

/-- A joint state is hidden when both parts are hidden. -/
def JointOpacityState.isHidden (st : JointOpacityState) : Bool :=
  st.text.isHidden && st.icon.isHidden

/-- JointPlacement (lines 52-65): the per label outcome of one placement
pass. -/
structure JointPlacement where
  text : Bool
  icon : Bool
  skipFade : Bool
deriving DecidableEq

/-- Anchors are the style strings such as top-left. -/
abbrev Anchor := String

def autoAnchor : Anchor := "auto"

def centerAnchor : Anchor := "center"

/-- AUTO_DYNAMIC_PLACEMENT (lines 119-129): the candidate list used when the
configured dynamic-text-anchor list starts with auto. -/
def AUTO_DYNAMIC_PLACEMENT : List Anchor :=
  ["center", "top", "bottom", "left", "right",
   "top-left", "top-right", "bottom-left", "bottom-right"]

/-- The result of CollisionGroups.get: a group id together with the id its
membership predicate closure tests against (none models a null predicate). -/
structure CollisionGroup where
  ID : Nat
  predicate : Option Nat
deriving DecidableEq

/-- Semantics of the predicate closure built at line 151: it accepts a key
exactly when the key carries the captured group id. A null predicate
accepts everything. -/
def evalPredicate (predicate : Option Nat) (keyCollisionGroupID : Nat) : Bool :=
  match predicate with
  | some groupID => keyCollisionGroupID == groupID
  | none => true

/-- CollisionGroups (lines 131-161): lazily assigns group ids per source. -/
structure CollisionGroups where
  crossSourceCollisions : Bool
  maxGroupID : Nat
  collisionGroups : List (String × Nat)
deriving DecidableEq

/-- The CollisionGroups constructor. -/
def CollisionGroups.init (crossSourceCollisions : Bool) : CollisionGroups :=
  ⟨crossSourceCollisions, 0, []⟩

/-- CollisionGroups.get: with cross source collisions every source shares
group 0 and a null predicate; otherwise each new source receives the next
id and a predicate matching only that id, and known sources reuse their
stored entry. -/
def CollisionGroups.get (cg : CollisionGroups) (sourceID : String) :
    CollisionGroups × CollisionGroup :=
  if cg.crossSourceCollisions = false then
    match mget cg.collisionGroups sourceID with
    | some existingID => (cg, ⟨existingID, some existingID⟩)
    | none =>
      let nextGroupID := cg.maxGroupID + 1
      ({cg with maxGroupID := nextGroupID,
                collisionGroups := mset cg.collisionGroups sourceID nextGroupID},
       ⟨nextGroupID, some nextGroupID⟩)
  else (cg, ⟨0, none⟩)

/-- Run a sequence of get calls, keeping only the evolving state. -/
def runGets (cg : CollisionGroups) : List String → CollisionGroups
  | [] => cg
  | s :: rest => runGets (CollisionGroups.get cg s).1 rest

/-- Internal invariant of CollisionGroups in non cross source mode: stored
ids are nonzero, bounded by maxGroupID, and pairwise distinct. -/
def CGWF (cg : CollisionGroups) : Prop :=
  (∀ p ∈ cg.collisionGroups, 0 < p.2 ∧ p.2 ≤ cg.maxGroupID) ∧
  (cg.collisionGroups.map Prod.snd).Nodup

/-- The dynamic offset record stored at lines 316-323. -/
structure DynOffset where
  radialOffset : ℚ
  width : ℚ
  height : ℚ
  anchor : Anchor
  textBoxScale : ℚ
  prevAnchor : Option Anchor
deriving DecidableEq

/-- The data of a previous Placement consulted by the current one. -/
structure PrevData where
  placements : List (Nat × JointPlacement)
  opacities : List (Nat × JointOpacityState)
  dynamicOffsets : List (Nat × DynOffset)
  commitTime : ℚ
  lastPlacementChangeTime : Option ℚ
deriving DecidableEq

/-- A record of one insertion into the collision index. -/
inductive InsertionKind
  | box
  | circles
deriving DecidableEq

structure Insertion where
  kind : InsertionKind
  geometry : List ℚ
  ignorePlacement : Bool
  bucketInstanceId : Nat
  featureIndex : Nat
  collisionGroupID : Nat
deriving DecidableEq

/-- The mutable state of a Placement instance (lines 205-234), with the
collision index modeled as the ordered list of insertions made so far. -/
structure PlacementState where
  placements : List (Nat × JointPlacement)
  opacities : List (Nat × JointOpacityState)
  dynamicOffsets : List (Nat × DynOffset)
  commitTime : ℚ
  lastPlacementChangeTime : Option ℚ
  stale : Bool
  fadeDuration : ℚ
  collisionGroups : CollisionGroups
  collisionIndex : List Insertion
  prevPlacement : Option PrevData

/-- The increment computed at lines 542-544 of commit, with commitTime
already set to now. -/
def commitIncrement (fadeDuration : ℚ) (prevPlacement : Option PrevData) (now : ℚ) : ℚ :=
  match prevPlacement with
  | some prev => if fadeDuration ≠ 0 then (now - prev.commitTime) / fadeDuration else 1
  | none => 1

def prevOpacitiesOf : Option PrevData → List (Nat × JointOpacityState)
  | some p => p.opacities
  | none => []

def prevOffsetsOf : Option PrevData → List (Nat × DynOffset)
  | some p => p.dynamicOffsets
  | none => []

/-- The value written for one crossTileID by the first commit loop
(lines 549-561). -/
def loop1Val (prevOpacities : List (Nat × JointOpacityState)) (increment : ℚ)
    (ctid : Nat) (jp : JointPlacement) : JointOpacityState :=
  match mget prevOpacities ctid with
  | some prevOpacity => mkJointOpacityState (some prevOpacity) increment jp.text jp.icon false
  | none => mkJointOpacityState none increment jp.text jp.icon jp.skipFade

/-- First commit loop: derive the new opacity of every label placed this
pass, and track whether any placed flag flipped. -/
def commitLoop1 (prevOpacities : List (Nat × JointOpacityState)) (increment : ℚ) :
    List (Nat × JointPlacement) →
    List (Nat × JointOpacityState) × Bool → List (Nat × JointOpacityState) × Bool
  | [], acc => acc
  | (ctid, jp) :: rest, acc =>
    let newChanged :=
      match mget prevOpacities ctid with
      | some prevOpacity =>
        acc.2 || decide (jp.text ≠ prevOpacity.text.placed) || decide (jp.icon ≠ prevOpacity.icon.placed)
      | none => acc.2 || jp.text || jp.icon
    commitLoop1 prevOpacities increment rest
      (mset acc.1 ctid (loop1Val prevOpacities increment ctid jp), newChanged)

/-- Second commit loop (lines 564-573): labels of the previous pass that are
absent this pass keep fading toward a false/false target and survive only
while not fully hidden. -/
def commitLoop2 (increment : ℚ) :
    List (Nat × JointOpacityState) →
    List (Nat × JointOpacityState) × Bool → List (Nat × JointOpacityState) × Bool
  | [], acc => acc
  | (ctid, prevOpacity) :: rest, acc =>
    match mget acc.1 ctid with
    | none =>
      if (mkJointOpacityState (some prevOpacity) increment false false false).isHidden then
        commitLoop2 increment rest acc
      else
        commitLoop2 increment rest
          (mset acc.1 ctid (mkJointOpacityState (some prevOpacity) increment false false false),
           acc.2 || prevOpacity.text.placed || prevOpacity.icon.placed)
    | some _ => commitLoop2 increment rest acc

/-- Third commit loop (lines 574-578): carry forward dynamic offsets of
labels that still have a non hidden opacity. -/
def commitLoop3 (opacities : List (Nat × JointOpacityState)) :
    List (Nat × DynOffset) → List (Nat × DynOffset) → List (Nat × DynOffset)
  | [], m => m
  | (ctid, off) :: rest, m =>
    match mget m ctid with
    | none =>
      match mget opacities ctid with
      | some jointOpacity =>
        if jointOpacity.isHidden then commitLoop3 opacities rest m
        else commitLoop3 opacities rest (mset m ctid off)
      | none => commitLoop3 opacities rest m
    | some _ => commitLoop3 opacities rest m

/-- Placement.commit (lines 537-589). -/
def commit (st : PlacementState) (prevPlacement : Option PrevData) (now : ℚ) :
    PlacementState :=
  let increment := commitIncrement st.fadeDuration prevPlacement now
  let prevOpacities := prevOpacitiesOf prevPlacement
  let prevOffsets := prevOffsetsOf prevPlacement
  let r1 := commitLoop1 prevOpacities increment st.placements (st.opacities, false)
  let r2 := commitLoop2 increment prevOpacities r1
  let offs := commitLoop3 r2.1 prevOffsets st.dynamicOffsets
  let lpct :=
    if r2.2 then some now
    else
      match st.lastPlacementChangeTime with
      | some t => some t
      | none =>
        match prevPlacement with
        | some p => p.lastPlacementChangeTime
        | none => some now
  { st with commitTime := now, opacities := r2.1, dynamicOffsets := offs,
            lastPlacementChangeTime := lpct }

/-- The last write performed for key k by the first commit loop, if any. -/
def loop1Find (prevOpacities : List (Nat × JointOpacityState)) (increment : ℚ) :
    List (Nat × JointPlacement) → Nat → Option JointOpacityState
  | [], _ => none
  | (ctid, jp) :: rest, k =>
    match loop1Find prevOpacities increment rest k with
    | some v => some v
    | none =>
      if ctid = k then some (loop1Val prevOpacities increment ctid jp) else none

/-- The entry the second commit loop would create for key k on an accumulator
that does not yet contain k. -/
def loop2Find (increment : ℚ) :
    List (Nat × JointOpacityState) → Nat → Option JointOpacityState
  | [], _ => none
  | (ctid, prevOpacity) :: rest, k =>
    if ctid = k then
      if (mkJointOpacityState (some prevOpacity) increment false false false).isHidden then
        loop2Find increment rest k
      else some (mkJointOpacityState (some prevOpacity) increment false false false)
    else loop2Find increment rest k

/-- Opacity packing (lines 785-804): shift constants. -/
def shift25 : ℕ := 2 ^ 25
def shift24 : ℕ := 2 ^ 24
def shift17 : ℕ := 2 ^ 17
def shift16 : ℕ := 2 ^ 16
def shift9 : ℕ := 2 ^ 9
def shift8 : ℕ := 2 ^ 8
def shift1 : ℕ := 2 ^ 1

/-- Math.floor(opacity * 127), the 7 bit quantisation of packOpacity. -/
def opacityBits (st : OpacityState) : ℕ :=
  (Int.floor (st.opacity * 127)).toNat

/-- packOpacity (lines 792-804). -/
def packOpacity (st : OpacityState) : ℕ :=
  if st.opacity = 0 ∧ st.placed = false then 0
  else if st.opacity = 1 ∧ st.placed = true then 4294967295
  else
    let targetBit : ℕ := if st.placed then 1 else 0
    let bits := opacityBits st
    bits * shift25 + targetBit * shift24 +
      bits * shift17 + targetBit * shift16 +
      bits * shift9 + targetBit * shift8 +
      bits * shift1 + targetBit

/-- A placed symbol entry of the bucket text placedSymbolArray, restricted to
the fields placement mutates. -/
structure PlacedSymbol where
  crossTileID : Nat
  hidden : Bool
deriving DecidableEq

/-- The layout properties placeLayerBucket reads (spec section 6). -/
structure Layout where
  textOptional : Bool
  iconOptional : Bool
  textAllowOverlap : Bool
  iconAllowOverlap : Bool
  textIgnorePlacement : Bool
  iconIgnorePlacement : Bool
  dynamicTextAnchor : Option (List Anchor)
  textRotationAlignmentMap : Bool
  textPitchAlignmentMap : Bool
deriving DecidableEq

/-- A symbol instance (the fields placement reads). Justification indices are
integers, negative meaning that justification was not generated. -/
structure SymbolInstance where
  crossTileID : Nat
  rightJustifiedTextSymbolIndex : Int
  centerJustifiedTextSymbolIndex : Int
  leftJustifiedTextSymbolIndex : Int
  verticalPlacedTextSymbolIndex : Int
  layoutTextSize : ℚ
  dynamicTextOffset : ℚ
  numHorizontalGlyphVertices : Nat
  numVerticalGlyphVertices : Nat
  numIconVertices : Nat
deriving DecidableEq

/-- A single collision box (the fields read by the anchor attempt). -/
structure SingleCollisionBox where
  x1 : ℚ
  y1 : ℚ
  x2 : ℚ
  y2 : ℚ
  anchorPointX : ℚ
  anchorPointY : ℚ
deriving DecidableEq

/-- The per instance candidate geometry (bucket.collisionArrays[i]). Feature
indices default to zero exactly as in the source. -/
structure CollisionArrays where
  textBox : Option SingleCollisionBox
  iconBox : Option SingleCollisionBox
  textCircles : Option (List ℚ)
  textFeatureIndex : Nat
  iconFeatureIndex : Nat
deriving DecidableEq

/-- A symbol bucket (the parts placement reads and writes). -/
structure Bucket where
  symbolInstances : List SymbolInstance
  collisionArrays : List CollisionArrays
  layout : Layout
  sourceID : String
  bucketInstanceId : Nat
  tilePixelScale : ℚ
  justReloaded : Bool
  hasIconData : Bool
  hasTextData : Bool
  textPlacedSymbols : List PlacedSymbol
deriving DecidableEq

/-- Justification keys of the justifications record built at lines 399-403. -/
inductive Justification
  | left
  | center
  | right
deriving DecidableEq

/-- The arguments of a collision box query; the dynamic anchor path carries
the shift parameters the source feeds through calculateDynamicLayoutOffset
and shiftDynamicCollisionBox, geometry the oracle resolves. -/
structure ShiftArgs where
  anchor : Anchor
  width : ℚ
  height : ℚ
  radialOffset : ℚ
  textBoxScale : ℚ
  rotateWithMap : Bool
  pitchWithMap : Bool
deriving DecidableEq

structure BoxQuery where
  box : SingleCollisionBox
  shift : Option ShiftArgs
  allowOverlap : Bool
  pixelScale : ℚ
  posMatrix : Nat
  predicate : Option Nat
deriving DecidableEq

/-- The result of CollisionIndex.placeCollisionBox. -/
structure PlaceResult where
  box : List ℚ
  offscreen : Bool
deriving DecidableEq

structure CircleQuery where
  circles : List ℚ
  allowOverlap : Bool
  scale : ℚ
  pixelScale : ℚ
  placedSymbolIndex : Option Int
  posMatrix : Nat
  showCollisionBoxes : Bool
  pitchWithMap : Bool
  predicate : Option Nat
deriving DecidableEq

/-- The result of CollisionIndex.placeCollisionCircles. -/
structure CircleResult where
  circles : List ℚ
  offscreen : Bool
deriving DecidableEq

/-- The external collaborators (spec sections 1 and 6): the collision index
query functions, and the text layout helpers imported from other modules. -/
structure Env where
  placeBox : BoxQuery → PlaceResult
  placeCircles : CircleQuery → CircleResult
  getAnchorJustification : Anchor → Justification
  getTextboxScale : ℚ → ℚ → ℚ

/-- Log of external effects: warnings requested through warnOnce and the
number of collision box queries issued. -/
structure EffLog where
  warnings : List String
  boxQueries : Nat
deriving DecidableEq

/-- The state threaded through one bucket pass. -/
structure World where
  st : PlacementState
  bucket : Bucket
  log : EffLog

def logBoxQuery (w : World) : World :=
  {w with log := {w.log with boxQueries := w.log.boxQueries + 1}}

def addWarning (w : World) (msg : String) : World :=
  {w with log := {w.log with warnings := w.log.warnings ++ [msg]}}

def autoAnchorWarning : String :=
  "Auto is not valid as any but the first element of the dynamic-text-anchor array."

def insertBoxW (w : World) (geometry : List ℚ) (ignorePlacement : Bool)
    (bucketInstanceId featureIndex collisionGroupID : Nat) : World :=
  {w with st := {w.st with collisionIndex :=
      w.st.collisionIndex ++
        [⟨InsertionKind.box, geometry, ignorePlacement, bucketInstanceId, featureIndex, collisionGroupID⟩]}}

def insertCirclesW (w : World) (geometry : List ℚ) (ignorePlacement : Bool)
    (bucketInstanceId featureIndex collisionGroupID : Nat) : World :=
  {w with st := {w.st with collisionIndex :=
      w.st.collisionIndex ++
        [⟨InsertionKind.circles, geometry, ignorePlacement, bucketInstanceId, featureIndex, collisionGroupID⟩]}}

/-- Update entry n of a placed symbol list. -/
def modifyAt (arr : List PlacedSymbol) (n : Nat) (f : PlacedSymbol → PlacedSymbol) :
    List PlacedSymbol :=
  match arr, n with
  | [], _ => []
  | a :: rest, 0 => f a :: rest
  | a :: rest, n + 1 => a :: modifyAt rest n f

/-- Write the crossTileID field of the placed symbol at an integer index,
when the index addresses a live entry. -/
def setCrossTileID (arr : List PlacedSymbol) (idx : Int) (value : Nat) :
    List PlacedSymbol :=
  if 0 ≤ idx then modifyAt arr idx.toNat (fun p => {p with crossTileID := value})
  else arr

/-- The justification index record of one instance. -/
def instanceJustifications (si : SymbolInstance) : Justification → Int
  | Justification.left => si.leftJustifiedTextSymbolIndex
  | Justification.center => si.centerJustifiedTextSymbolIndex
  | Justification.right => si.rightJustifiedTextSymbolIndex

/-- hideUnplacedJustifications (lines 520-535): stamp the chosen
justification with the crossTileID and shift the other generated
justifications offscreen by zeroing theirs. -/
def hideUnplacedJustifications (bucket : Bucket) (placedJustification : Justification)
    (si : SymbolInstance) : Bucket :=
  let instances := instanceJustifications si
  let placedIndex := instances placedJustification
  let arr0 := setCrossTileID bucket.textPlacedSymbols placedIndex si.crossTileID
  let arr :=
    [Justification.left, Justification.center, Justification.right].foldl
      (fun arr j =>
        let index := instances j
        if 0 ≤ index ∧ index ≠ placedIndex then setCrossTileID arr index 0 else arr)
      arr0
  {bucket with textPlacedSymbols := arr}

/-- The per bucket context placeLayerBucket computes before its instance
loop (lines 333-359). -/
structure BucketCtx where
  posMatrix : Nat
  scale : ℚ
  textPixelScale : ℚ
  showCollisionBoxes : Bool
  collisionGroup : CollisionGroup
  textOptional : Bool
  iconOptional : Bool
  textAllowOverlap : Bool
  iconAllowOverlap : Bool
  alwaysShowText : Bool
  alwaysShowIcon : Bool
  rotateWithMap : Bool
  pitchWithMap : Bool
  layout : Layout

/-- Placement.attemptAnchorPlacement (lines 276-328). The shift computation
and the shifted collision test are delegated to the oracle through the
query record; a successful attempt records the dynamic offset and hides the
unplaced justifications. -/
def attemptAnchorPlacement (env : Env) (anchor : Anchor) (dynamicAnchors : List Anchor)
    (ca : CollisionArrays) (textBox : SingleCollisionBox)
    (dynamicTextOffset textBoxScale : ℚ) (ctx : BucketCtx)
    (justifications : Justification → Int) (si : SymbolInstance)
    (w : World) : Option PlaceResult × World :=
  if ca.iconBox.isSome ∧ dynamicAnchors.head? = some autoAnchor ∧ anchor = centerAnchor then
    (none, w)
  else if anchor = autoAnchor then
    (none, addWarning w autoAnchorWarning)
  else
    let justification := env.getAnchorJustification anchor
    let justifiedPlacedSymbol := justifications justification
    if justifiedPlacedSymbol < 0 then (none, w)
    else
      let width := textBox.x2 - textBox.x1
      let height := textBox.y2 - textBox.y1
      match ca.textBox with
      | some tb =>
        let q : BoxQuery :=
          { box := tb,
            shift := some ⟨anchor, width, height, dynamicTextOffset, textBoxScale,
                           ctx.rotateWithMap, ctx.pitchWithMap⟩,
            allowOverlap := ctx.textAllowOverlap,
            pixelScale := ctx.textPixelScale,
            posMatrix := ctx.posMatrix,
            predicate := ctx.collisionGroup.predicate }
        let r := env.placeBox q
        let w1 := logBoxQuery w
        if 0 < r.box.length then
          let prevAnchor : Option Anchor :=
            match w1.st.prevPlacement with
            | some pp =>
              match mget pp.dynamicOffsets si.crossTileID, mget pp.placements si.crossTileID with
              | some off, some jp => if jp.text then some off.anchor else none
              | _, _ => none
            | none => none
          let newOffsets := mset w1.st.dynamicOffsets si.crossTileID
            ⟨dynamicTextOffset, width, height, anchor, textBoxScale, prevAnchor⟩
          let st := {w1.st with dynamicOffsets := newOffsets}
          let bucket := hideUnplacedJustifications w1.bucket justification si
          (some r, {w1 with st := st, bucket := bucket})
        else (none, w1)
      | none => (none, w)

/-- The candidate anchor list of lines 412-421: expand a leading auto to
AUTO_DYNAMIC_PLACEMENT, then move the previously used anchor to the front
of a filtered copy when it is not already first. -/
def buildAnchorList (dynamicAnchors : List Anchor) (prevAnchor : Option Anchor) :
    List Anchor :=
  let anchors :=
    if dynamicAnchors.head? = some autoAnchor then AUTO_DYNAMIC_PLACEMENT
    else dynamicAnchors
  match prevAnchor with
  | none => anchors
  | some pa =>
    if anchors.head? = some pa then anchors
    else pa :: anchors.filter (fun a => a != pa)

/-- The anchor loop at lines 423-432: try candidates in order until one
places. -/
def anchorLoop (env : Env) (ctx : BucketCtx) (dynamicAnchors : List Anchor)
    (ca : CollisionArrays) (textBox : SingleCollisionBox)
    (dynamicTextOffset textBoxScale : ℚ) (justifications : Justification → Int)
    (si : SymbolInstance) :
    List Anchor → World → Option PlaceResult × World
  | [], w => (none, w)
  | anchor :: rest, w =>
    let r := attemptAnchorPlacement env anchor dynamicAnchors ca textBox
      dynamicTextOffset textBoxScale ctx justifications si w
    match r.1 with
    | some pr => (some pr, r.2)
    | none =>
      anchorLoop env ctx dynamicAnchors ca textBox dynamicTextOffset textBoxScale
        justifications si rest r.2

/-- The text and icon coupling step of lines 482-494, returning the pair
(placeText, placeIcon). -/
def coupleTextIcon (textOptional iconOptional : Bool)
    (numHorizontalGlyphVertices numVerticalGlyphVertices numIconVertices : Nat)
    (placeText placeIcon : Bool) : Bool × Bool :=
  let iconWithoutText :=
    textOptional || (numHorizontalGlyphVertices == 0 && numVerticalGlyphVertices == 0)
  let textWithoutIcon := iconOptional || numIconVertices == 0
  if !iconWithoutText && !textWithoutIcon then (placeIcon && placeText, placeIcon && placeText)
  else if !textWithoutIcon then (placeIcon && placeText, placeIcon)
  else if !iconWithoutText then (placeText, placeIcon && placeText)
  else (placeText, placeIcon)

/-- Result of the resolution body of placeLayerBucket for one symbol
instance, before the placements entry is written. -/
structure CoreResult where
  placeText : Bool
  placeIcon : Bool
  offscreen : Bool
  world : World

/-- The overlap resolution body of placeLayerBucket (lines 375-507) for one
not yet seen symbol instance of a tile that is not holding for fade:
text box placement (fixed or dynamic anchor), circle placement, icon box
placement, the coupling step, and the collision index insertions. -/
def placeSymbolCore (env : Env) (ctx : BucketCtx) (w : World)
    (si : SymbolInstance) (ca : CollisionArrays) : CoreResult :=
  let textFeatureIndex := ca.textFeatureIndex
  let justifications := instanceJustifications si
  let textPhase : Option PlaceResult × Bool × World :=
    match ca.textBox, ctx.layout.dynamicTextAnchor with
    | some textBox, none =>
      let q : BoxQuery :=
        { box := textBox, shift := none, allowOverlap := ctx.textAllowOverlap,
          pixelScale := ctx.textPixelScale, posMatrix := ctx.posMatrix,
          predicate := ctx.collisionGroup.predicate }
      let r := env.placeBox q
      (some r, decide (0 < r.box.length), logBoxQuery w)
    | some textBox, some dynamicAnchors =>
      let textBoxScale := env.getTextboxScale w.bucket.tilePixelScale si.layoutTextSize
      let prevAnchor : Option Anchor :=
        match w.st.prevPlacement with
        | some pp => (mget pp.dynamicOffsets si.crossTileID).map DynOffset.anchor
        | none => none
      let anchors := buildAnchorList dynamicAnchors prevAnchor
      let loopOut := anchorLoop env ctx dynamicAnchors ca textBox si.dynamicTextOffset
        textBoxScale justifications si anchors w
      let w1 := loopOut.2
      let w2 :=
        if (mget w1.st.dynamicOffsets si.crossTileID).isNone then
          match w1.st.prevPlacement with
          | some pp =>
            match mget pp.dynamicOffsets si.crossTileID with
            | some prevOffset =>
              let newOffsets := mset w1.st.dynamicOffsets si.crossTileID prevOffset
              let st := {w1.st with dynamicOffsets := newOffsets}
              let bucket := hideUnplacedJustifications w1.bucket
                (env.getAnchorJustification prevOffset.anchor) si
              {w1 with st := st, bucket := bucket}
            | none => w1
          | none => w1
        else w1
      (loopOut.1, loopOut.1.isSome, w2)
    | none, _ => (none, false, w)
  let placedGlyphBoxes := textPhase.1
  let placeText0 := textPhase.2.1
  let w3 := textPhase.2.2
  let offscreen0 :=
    match placedGlyphBoxes with
    | some r => r.offscreen
    | none => false
  let alongLineJustification :=
    [si.leftJustifiedTextSymbolIndex, si.centerJustifiedTextSymbolIndex,
     si.rightJustifiedTextSymbolIndex].filter (fun i => decide (0 ≤ i))
  let circlePhase : Option CircleResult × Bool × Bool × World :=
    match ca.textCircles with
    | some textCircles =>
      let cq : CircleQuery :=
        { circles := textCircles, allowOverlap := ctx.textAllowOverlap,
          scale := ctx.scale, pixelScale := ctx.textPixelScale,
          placedSymbolIndex := alongLineJustification.head?,
          posMatrix := ctx.posMatrix, showCollisionBoxes := ctx.showCollisionBoxes,
          pitchWithMap := ctx.pitchWithMap,
          predicate := ctx.collisionGroup.predicate }
      let c := env.placeCircles cq
      (some c, ctx.textAllowOverlap || decide (0 < c.circles.length),
       offscreen0 && c.offscreen, w3)
    | none => (none, placeText0, offscreen0, w3)
  let placedGlyphCircles := circlePhase.1
  let placeText1 := circlePhase.2.1
  let offscreen1 := circlePhase.2.2.1
  let w4 := circlePhase.2.2.2
  let iconFeatureIndex := ca.iconFeatureIndex
  let iconPhase : Option PlaceResult × Bool × Bool × World :=
    match ca.iconBox with
    | some iconBox =>
      let q : BoxQuery :=
        { box := iconBox, shift := none, allowOverlap := ctx.iconAllowOverlap,
          pixelScale := ctx.textPixelScale, posMatrix := ctx.posMatrix,
          predicate := ctx.collisionGroup.predicate }
      let r := env.placeBox q
      (some r, decide (0 < r.box.length), offscreen1 && r.offscreen, logBoxQuery w4)
    | none => (none, false, offscreen1, w4)
  let placedIconBoxes := iconPhase.1
  let placeIcon1 := iconPhase.2.1
  let offscreen2 := iconPhase.2.2.1
  let w5 := iconPhase.2.2.2
  let coupled := coupleTextIcon ctx.textOptional ctx.iconOptional
    si.numHorizontalGlyphVertices si.numVerticalGlyphVertices si.numIconVertices
    placeText1 placeIcon1
  let placeText := coupled.1
  let placeIcon := coupled.2
  let w6 :=
    if placeText then
      match placedGlyphBoxes with
      | some r => insertBoxW w5 r.box ctx.layout.textIgnorePlacement
          w5.bucket.bucketInstanceId textFeatureIndex ctx.collisionGroup.ID
      | none => w5
    else w5
  let w7 :=
    if placeIcon then
      match placedIconBoxes with
      | some r => insertBoxW w6 r.box ctx.layout.iconIgnorePlacement
          w6.bucket.bucketInstanceId iconFeatureIndex ctx.collisionGroup.ID
      | none => w6
    else w6
  let w8 :=
    if placeText then
      match placedGlyphCircles with
      | some c => insertCirclesW w7 c.circles ctx.layout.textIgnorePlacement
          w7.bucket.bucketInstanceId textFeatureIndex ctx.collisionGroup.ID
      | none => w7
    else w7
  ⟨placeText, placeIcon, offscreen2, w8⟩

/-- Resolution of one instance followed by the placements write of
lines 509-511. -/
def placeSymbolInstance (env : Env) (ctx : BucketCtx) (w : World)
    (si : SymbolInstance) (ca : CollisionArrays) : World :=
  let r := placeSymbolCore env ctx w si ca
  let w1 := r.world
  let jp := JointPlacement.mk (r.placeText || ctx.alwaysShowText)
    (r.placeIcon || ctx.alwaysShowIcon) (r.offscreen || w1.bucket.justReloaded)
  {w1 with st := {w1.st with placements := mset w1.st.placements si.crossTileID jp}}

/-- The instance loop of placeLayerBucket (lines 365-515): skip instances
whose crossTileID was already seen; while holding for fade write an
all-false placement without marking the id seen; otherwise resolve the
instance and mark it seen. -/
def placeBucketLoop (env : Env) (ctx : BucketCtx) (holdingForFade : Bool) :
    List (SymbolInstance × CollisionArrays) → World → List Nat → World × List Nat
  | [], w, seen => (w, seen)
  | (si, ca) :: rest, w, seen =>
    if si.crossTileID ∈ seen then placeBucketLoop env ctx holdingForFade rest w seen
    else if holdingForFade then
      let newPlacements :=
        mset w.st.placements si.crossTileID (JointPlacement.mk false false false)
      let w1 := {w with st := {w.st with placements := newPlacements}}
      placeBucketLoop env ctx holdingForFade rest w1 seen
    else
      placeBucketLoop env ctx holdingForFade rest
        (placeSymbolInstance env ctx w si ca) (si.crossTileID :: seen)

/-- Placement.placeLayerBucket (lines 330-518): build the per bucket
context, fetch the collision group of the source, run the instance loop,
and clear justReloaded. The projection matrices are opaque tokens carried
into the oracle queries, and buckets are modeled with their collision
arrays already deserialized (the lazy deserializeCollisionBoxes call is an
external storage concern). -/
def placeLayerBucket (env : Env) (st : PlacementState) (bucket : Bucket)
    (log : EffLog) (posMatrix : Nat) (scale textPixelScale : ℚ)
    (showCollisionBoxes holdingForFade : Bool) (seen : List Nat) :
    PlacementState × Bucket × EffLog × List Nat :=
  let layout := bucket.layout
  let cg := CollisionGroups.get st.collisionGroups bucket.sourceID
  let st1 := {st with collisionGroups := cg.1}
  let ctx : BucketCtx :=
    { posMatrix := posMatrix, scale := scale, textPixelScale := textPixelScale,
      showCollisionBoxes := showCollisionBoxes, collisionGroup := cg.2,
      textOptional := layout.textOptional, iconOptional := layout.iconOptional,
      textAllowOverlap := layout.textAllowOverlap,
      iconAllowOverlap := layout.iconAllowOverlap,
      alwaysShowText := layout.textAllowOverlap &&
        (layout.iconAllowOverlap || !bucket.hasIconData || layout.iconOptional),
      alwaysShowIcon := layout.iconAllowOverlap &&
        (layout.textAllowOverlap || !bucket.hasTextData || layout.textOptional),
      rotateWithMap := layout.textRotationAlignmentMap,
      pitchWithMap := layout.textPitchAlignmentMap,
      layout := layout }
  let r := placeBucketLoop env ctx holdingForFade
    (bucket.symbolInstances.zip bucket.collisionArrays) ⟨st1, bucket, log⟩ seen
  (r.1.st, {r.1.bucket with justReloaded := false}, r.1.log, r.2)

/-- One logical placement sweep over two buckets (tiles) that share the
seenCrossTileIDs set, neither holding for fade, processed left to right as
in spec section 5; returns the outcome of each placeLayerBucket call. -/
def placeTwoBucketsSweep (env : Env) (st0 : PlacementState) (b1 b2 : Bucket)
    (log0 : EffLog) (pm1 pm2 : Nat) (sc1 sc2 tpx1 tpx2 : ℚ)
    (scb1 scb2 : Bool) (seen0 : List Nat) :
    (PlacementState × Bucket × EffLog × List Nat) ×
      (PlacementState × Bucket × EffLog × List Nat) :=
  let r1 := placeLayerBucket env st0 b1 log0 pm1 sc1 tpx1 scb1 false seen0
  let r2 := placeLayerBucket env r1.1 b2 r1.2.2.1 pm2 sc2 tpx2 scb2 false r1.2.2.2
  (r1, r2)

/-- A concrete oracle whose box and circle queries always succeed. -/
def sampleEnv : Env :=
  ⟨fun _ => ⟨[0], false⟩, fun _ => ⟨[0], false⟩,
   fun _ => Justification.center, fun _ _ => 1⟩

def sampleLayout : Layout :=
  ⟨false, false, false, false, false, false, none, false, false⟩

def sampleInstance : SymbolInstance :=
  ⟨7, 0, -1, -1, -1, 16, 0, 4, 0, 0⟩

def sampleCollisionArrays : CollisionArrays :=
  ⟨some ⟨0, 0, 10, 10, 5, 5⟩, none, none, 0, 0⟩

def sampleBucket (sourceID : String) (bucketInstanceId : Nat) : Bucket :=
  ⟨[sampleInstance], [sampleCollisionArrays], sampleLayout, sourceID,
   bucketInstanceId, 1, false, false, true, [⟨0, false⟩]⟩

def samplePlacementState : PlacementState :=
  ⟨[], [], [], 0, none, false, 300, CollisionGroups.init true, [], none⟩

def sampleLog : EffLog := ⟨[], 0⟩

def srcA : String := "a"

def srcB : String := "b"

def samplePrevJoint : JointOpacityState := ⟨⟨1, true⟩, ⟨0, false⟩⟩

def samplePrevData : PrevData :=
  ⟨[], [(7, samplePrevJoint)], [], 0, none⟩

/-- A concrete sweep: two single instance buckets from different sources
sharing crossTileID 7. -/
def sampleSweep :
    (PlacementState × Bucket × EffLog × List Nat) ×
      (PlacementState × Bucket × EffLog × List Nat) :=
  placeTwoBucketsSweep sampleEnv samplePlacementState (sampleBucket srcA 1)
    (sampleBucket srcB 2) sampleLog 0 0 1 1 1 1 false false []

/- ------------------------------------------------------------------ -/
/- Theorems.                                                          -/
/- ------------------------------------------------------------------ -/

theorem mget_mset_self {κ α : Type} [DecidableEq κ] (m : List (κ × α)) (k : κ) (v : α) :
    mget (mset m k v) k = some v := by
  simp [mget, mset]

theorem mget_mset_ne {κ α : Type} [DecidableEq κ] (m : List (κ × α)) (k k2 : κ) (v : α)
    (h : k ≠ k2) : mget (mset m k v) k2 = mget m k2 := by
  simp [mget, mset, h]

theorem mget_mem {κ α : Type} [DecidableEq κ] (m : List (κ × α)) (k : κ) (v : α)
    (h : mget m k = some v) : (k, v) ∈ m := by
  induction m with
  | nil => cases h
  | cons p rest ih =>
    obtain ⟨k1, v1⟩ := p
    rw [mget] at h
    by_cases hk : k1 = k
    · rw [if_pos hk] at h
      cases h
      subst hk
      exact List.mem_cons_self _ _
    · rw [if_neg hk] at h
      exact List.mem_cons_of_mem _ (ih h)

/-- C1: for every OpacityState transition from a previous state with opacity
in the unit interval, the resulting opacity stays in the unit interval, and
isHidden holds exactly when the opacity is zero and the state is unplaced. -/
theorem opacity_transition_spec :
    (∀ (prev : OpacityState) (increment : ℚ) (placed skipFade : Bool),
      0 ≤ prev.opacity → prev.opacity ≤ 1 →
        0 ≤ (mkOpacityState (some prev) increment placed skipFade).opacity ∧
        (mkOpacityState (some prev) increment placed skipFade).opacity ≤ 1) ∧
    (∀ st : OpacityState, st.isHidden = true ↔ (st.opacity = 0 ∧ st.placed = false)) := by
  constructor
  · intro prev increment placed skipFade h0 h1
    constructor
    · exact le_max_left 0 _
    · exact max_le (by norm_num) (min_le_left 1 _)
  · intro st
    simp [OpacityState.isHidden]

/-- C1 witness at a concrete transition. -/
theorem opacity_transition_spec_witness :
    (0 : ℚ) ≤ (1 / 2 : ℚ) ∧ (1 / 2 : ℚ) ≤ 1 ∧
    (0 ≤ (mkOpacityState (some ⟨1 / 2, true⟩) (1 / 4) true false).opacity ∧
      (mkOpacityState (some ⟨1 / 2, true⟩) (1 / 4) true false).opacity ≤ 1) ∧
    (OpacityState.isHidden ⟨0, false⟩ = true ↔ ((0 : ℚ) = 0 ∧ false = false)) :=
  ⟨by norm_num, by norm_num,
   opacity_transition_spec.1 ⟨1 / 2, true⟩ (1 / 4) true false (by norm_num) (by norm_num),
   opacity_transition_spec.2 ⟨0, false⟩⟩

theorem div_shift (k q r E : ℕ) (hE : E = 2 ^ k * q + r) (hr : r < 2 ^ k) :
    E / 2 ^ k = q := by
  subst hE
  rw [Nat.mul_add_div (Nat.two_pow_pos k), Nat.div_eq_of_lt hr, Nat.add_zero]

theorem lane_decode (b t : ℕ) (hb : b ≤ 127) (ht : t ≤ 1) :
    (b * 2 ^ 25 + t * 2 ^ 24 + b * 2 ^ 17 + t * 2 ^ 16 + b * 2 ^ 9 + t * 2 ^ 8 + b * 2 ^ 1 + t) / 2 ^ 25 % 128 = b ∧
    (b * 2 ^ 25 + t * 2 ^ 24 + b * 2 ^ 17 + t * 2 ^ 16 + b * 2 ^ 9 + t * 2 ^ 8 + b * 2 ^ 1 + t) / 2 ^ 24 % 2 = t ∧
    (b * 2 ^ 25 + t * 2 ^ 24 + b * 2 ^ 17 + t * 2 ^ 16 + b * 2 ^ 9 + t * 2 ^ 8 + b * 2 ^ 1 + t) / 2 ^ 17 % 128 = b ∧
    (b * 2 ^ 25 + t * 2 ^ 24 + b * 2 ^ 17 + t * 2 ^ 16 + b * 2 ^ 9 + t * 2 ^ 8 + b * 2 ^ 1 + t) / 2 ^ 16 % 2 = t ∧
    (b * 2 ^ 25 + t * 2 ^ 24 + b * 2 ^ 17 + t * 2 ^ 16 + b * 2 ^ 9 + t * 2 ^ 8 + b * 2 ^ 1 + t) / 2 ^ 9 % 128 = b ∧
    (b * 2 ^ 25 + t * 2 ^ 24 + b * 2 ^ 17 + t * 2 ^ 16 + b * 2 ^ 9 + t * 2 ^ 8 + b * 2 ^ 1 + t) / 2 ^ 8 % 2 = t ∧
    (b * 2 ^ 25 + t * 2 ^ 24 + b * 2 ^ 17 + t * 2 ^ 16 + b * 2 ^ 9 + t * 2 ^ 8 + b * 2 ^ 1 + t) / 2 ^ 1 % 128 = b ∧
    (b * 2 ^ 25 + t * 2 ^ 24 + b * 2 ^ 17 + t * 2 ^ 16 + b * 2 ^ 9 + t * 2 ^ 8 + b * 2 ^ 1 + t) % 2 = t := by
  have d25 := div_shift 25 b
    (t * 2 ^ 24 + b * 2 ^ 17 + t * 2 ^ 16 + b * 2 ^ 9 + t * 2 ^ 8 + b * 2 ^ 1 + t)
    (b * 2 ^ 25 + t * 2 ^ 24 + b * 2 ^ 17 + t * 2 ^ 16 + b * 2 ^ 9 + t * 2 ^ 8 + b * 2 ^ 1 + t)
    (by ring) (by omega)
  have d24 := div_shift 24 (b * 2 ^ 1 + t)
    (b * 2 ^ 17 + t * 2 ^ 16 + b * 2 ^ 9 + t * 2 ^ 8 + b * 2 ^ 1 + t)
    (b * 2 ^ 25 + t * 2 ^ 24 + b * 2 ^ 17 + t * 2 ^ 16 + b * 2 ^ 9 + t * 2 ^ 8 + b * 2 ^ 1 + t)
    (by ring) (by omega)
  have d17 := div_shift 17 (b * 2 ^ 8 + t * 2 ^ 7 + b)
    (t * 2 ^ 16 + b * 2 ^ 9 + t * 2 ^ 8 + b * 2 ^ 1 + t)
    (b * 2 ^ 25 + t * 2 ^ 24 + b * 2 ^ 17 + t * 2 ^ 16 + b * 2 ^ 9 + t * 2 ^ 8 + b * 2 ^ 1 + t)
    (by ring) (by omega)
  have d16 := div_shift 16 (b * 2 ^ 9 + t * 2 ^ 8 + b * 2 ^ 1 + t)
    (b * 2 ^ 9 + t * 2 ^ 8 + b * 2 ^ 1 + t)
    (b * 2 ^ 25 + t * 2 ^ 24 + b * 2 ^ 17 + t * 2 ^ 16 + b * 2 ^ 9 + t * 2 ^ 8 + b * 2 ^ 1 + t)
    (by ring) (by omega)
  have d9 := div_shift 9 (b * 2 ^ 16 + t * 2 ^ 15 + b * 2 ^ 8 + t * 2 ^ 7 + b)
    (t * 2 ^ 8 + b * 2 ^ 1 + t)
    (b * 2 ^ 25 + t * 2 ^ 24 + b * 2 ^ 17 + t * 2 ^ 16 + b * 2 ^ 9 + t * 2 ^ 8 + b * 2 ^ 1 + t)
    (by ring) (by omega)
  have d8 := div_shift 8 (b * 2 ^ 17 + t * 2 ^ 16 + b * 2 ^ 9 + t * 2 ^ 8 + b * 2 ^ 1 + t)
    (b * 2 ^ 1 + t)
    (b * 2 ^ 25 + t * 2 ^ 24 + b * 2 ^ 17 + t * 2 ^ 16 + b * 2 ^ 9 + t * 2 ^ 8 + b * 2 ^ 1 + t)
    (by ring) (by omega)
  have d1 := div_shift 1
    (b * 2 ^ 24 + t * 2 ^ 23 + b * 2 ^ 16 + t * 2 ^ 15 + b * 2 ^ 8 + t * 2 ^ 7 + b)
    t
    (b * 2 ^ 25 + t * 2 ^ 24 + b * 2 ^ 17 + t * 2 ^ 16 + b * 2 ^ 9 + t * 2 ^ 8 + b * 2 ^ 1 + t)
    (by ring) (by omega)
  refine ⟨?_, ?_, ?_, ?_, ?_, ?_, ?_, ?_⟩
  · rw [d25]; omega
  · rw [d24]; omega
  · rw [d17]; omega
  · rw [d16]; omega
  · rw [d9]; omega
  · rw [d8]; omega
  · rw [d1]; omega
  · omega

/-- C8: packOpacity maps the all-off state to 0 and the all-on state to
4294967295, and for every other state with opacity in the unit interval the
packed word carries the 7 opacity bits at positions 25, 17, 9, 1 and the
placed bit at positions 24, 16, 8, 0, so each 8 bit lane decodes to the
same pair. -/
theorem packOpacity_lane_spec :
    packOpacity ⟨0, false⟩ = 0 ∧
    packOpacity ⟨1, true⟩ = 4294967295 ∧
    (∀ st : OpacityState, 0 ≤ st.opacity → st.opacity ≤ 1 →
      ¬(st.opacity = 0 ∧ st.placed = false) → ¬(st.opacity = 1 ∧ st.placed = true) →
      packOpacity st / 2 ^ 25 % 128 = opacityBits st ∧
      packOpacity st / 2 ^ 24 % 2 = (if st.placed then 1 else 0) ∧
      packOpacity st / 2 ^ 17 % 128 = opacityBits st ∧
      packOpacity st / 2 ^ 16 % 2 = (if st.placed then 1 else 0) ∧
      packOpacity st / 2 ^ 9 % 128 = opacityBits st ∧
      packOpacity st / 2 ^ 8 % 2 = (if st.placed then 1 else 0) ∧
      packOpacity st / 2 ^ 1 % 128 = opacityBits st ∧
      packOpacity st % 2 = (if st.placed then 1 else 0)) := by
  refine ⟨?_, ?_, ?_⟩
  · rw [packOpacity, if_pos]
    exact ⟨rfl, rfl⟩
  · rw [packOpacity, if_neg (by simp), if_pos]
    exact ⟨rfl, rfl⟩
  · intro st h0 h1 hn0 hn1
    have hbits : opacityBits st ≤ 127 := by
      have hle : st.opacity * 127 ≤ (127 : ℚ) := by nlinarith
      have hfl : Int.floor (st.opacity * 127) ≤ (127 : ℤ) := by
        have h2 := Int.floor_le_floor hle
        simpa using h2
      calc opacityBits st = (Int.floor (st.opacity * 127)).toNat := rfl
        _ ≤ (127 : ℤ).toNat := Int.toNat_le_toNat hfl
        _ = 127 := rfl
    have ht : (if st.placed then (1 : ℕ) else 0) ≤ 1 := by
      rcases st.placed <;> simp
    have hv : packOpacity st =
        opacityBits st * 2 ^ 25 + (if st.placed then 1 else 0) * 2 ^ 24 +
        opacityBits st * 2 ^ 17 + (if st.placed then 1 else 0) * 2 ^ 16 +
        opacityBits st * 2 ^ 9 + (if st.placed then 1 else 0) * 2 ^ 8 +
        opacityBits st * 2 ^ 1 + (if st.placed then 1 else 0) := by
      rw [packOpacity, if_neg hn0, if_neg hn1]
      simp only [shift25, shift24, shift17, shift16, shift9, shift8, shift1]
    obtain ⟨l1, l2, l3, l4, l5, l6, l7, l8⟩ :=
      lane_decode (opacityBits st) (if st.placed then 1 else 0) hbits ht
    rw [hv]
    exact ⟨l1, l2, l3, l4, l5, l6, l7, l8⟩

/-- C8 witness at opacity one half, placed. -/
theorem packOpacity_lane_spec_witness :
    (0 : ℚ) ≤ (1 / 2 : ℚ) ∧ (1 / 2 : ℚ) ≤ 1 ∧
    (packOpacity ⟨1 / 2, true⟩ / 2 ^ 25 % 128 = opacityBits ⟨1 / 2, true⟩ ∧
     packOpacity ⟨1 / 2, true⟩ / 2 ^ 24 % 2 = (if (true : Bool) then 1 else 0) ∧
     packOpacity ⟨1 / 2, true⟩ / 2 ^ 17 % 128 = opacityBits ⟨1 / 2, true⟩ ∧
     packOpacity ⟨1 / 2, true⟩ / 2 ^ 16 % 2 = (if (true : Bool) then 1 else 0) ∧
     packOpacity ⟨1 / 2, true⟩ / 2 ^ 9 % 128 = opacityBits ⟨1 / 2, true⟩ ∧
     packOpacity ⟨1 / 2, true⟩ / 2 ^ 8 % 2 = (if (true : Bool) then 1 else 0) ∧
     packOpacity ⟨1 / 2, true⟩ / 2 ^ 1 % 128 = opacityBits ⟨1 / 2, true⟩ ∧
     packOpacity ⟨1 / 2, true⟩ % 2 = (if (true : Bool) then 1 else 0)) :=
  ⟨by norm_num, by norm_num,
   packOpacity_lane_spec.2.2 ⟨1 / 2, true⟩ (by norm_num) (by norm_num)
     (by norm_num) (by norm_num)⟩

/-- C4 counterexample: an instance with no glyph vertices (numHorizontal = 0,
numVertical = 0), icon vertices present (4), text-optional false and
icon-optional false, whose icon placed (true) but whose text did not
(false). The claim asserts the two booleans come out equal; the code leaves
the icon boolean true and forces the text boolean to false. -/
theorem coupleTextIcon_unequal_cex :
    ¬((coupleTextIcon false false 0 0 4 false true).1 =
      (coupleTextIcon false false 0 0 4 false true).2) := by
  decide

/-- C4 amended: for an instance with zero glyph vertices, positive icon
vertices and text-optional false, the coupling step leaves the icon boolean
equal to the icon placement success, and sets the text boolean to the
conjunction of icon and text success when icon-optional is false (leaving
it unchanged when icon-optional is true); the two booleans agree exactly
when the incoming text boolean was already true or the icon failed. -/
theorem coupleTextIcon_no_text_spec (iconOptional : Bool) (numIconVertices : ℕ)
    (placeText placeIcon : Bool) (h : 0 < numIconVertices) :
    (coupleTextIcon false iconOptional 0 0 numIconVertices placeText placeIcon).2 = placeIcon ∧
    (coupleTextIcon false iconOptional 0 0 numIconVertices placeText placeIcon).1 =
      (if iconOptional then placeText else placeIcon && placeText) := by
  have hz : (numIconVertices == 0) = false := by
    simp [Nat.pos_iff_ne_zero.mp h]
  rcases iconOptional <;> rcases placeText <;> rcases placeIcon <;>
    simp [coupleTextIcon, hz]

/-- C4 witness at icon-optional false, four icon vertices, text success true
and icon success true. -/
theorem coupleTextIcon_no_text_spec_witness :
    0 < 4 ∧
    ((coupleTextIcon false false 0 0 4 true true).2 = true ∧
     (coupleTextIcon false false 0 0 4 true true).1 =
       (if (false : Bool) then true else true && true)) :=
  ⟨by decide, coupleTextIcon_no_text_spec false 4 true true (by decide)⟩

theorem buildAnchorList_head (dynamicAnchors : List Anchor) (prevAnchor : Anchor) :
    (buildAnchorList dynamicAnchors (some prevAnchor)).head? = some prevAnchor := by
  simp only [buildAnchorList]
  by_cases h : (if dynamicAnchors.head? = some autoAnchor then
      AUTO_DYNAMIC_PLACEMENT else dynamicAnchors).head? = some prevAnchor
  · rw [if_pos h]
    exact h
  · rw [if_neg h]
    rfl

/-- C6: when a previous placement recorded an anchor for this label and that
anchor occurs in the candidate anchor list (the configured list, or the
auto expansion), the candidate list the anchor loop of placeLayerBucket
walks starts with exactly that anchor, so it is attempted first. -/
theorem prevAnchor_attempted_first (dynamicAnchors : List Anchor) (prevAnchor : Anchor)
    (hmem : prevAnchor ∈ (if dynamicAnchors.head? = some autoAnchor then
      AUTO_DYNAMIC_PLACEMENT else dynamicAnchors)) :
    (buildAnchorList dynamicAnchors (some prevAnchor)).head? = some prevAnchor :=
  buildAnchorList_head dynamicAnchors prevAnchor

/-- C6 witness: previous anchor bottom inside the explicit candidate list. -/
theorem prevAnchor_attempted_first_witness :
    ("bottom" : Anchor) ∈ (if (["top", "bottom"] : List Anchor).head? = some autoAnchor then
      AUTO_DYNAMIC_PLACEMENT else ["top", "bottom"]) ∧
    (buildAnchorList ["top", "bottom"] (some ("bottom" : Anchor))).head? =
      some ("bottom" : Anchor) :=
  ⟨by decide, prevAnchor_attempted_first ["top", "bottom"] "bottom" (by decide)⟩

/-- C10: with an explicit (not auto headed) candidate list and a previous
anchor record, the anchor list is front shifted to start with the previous
anchor even when that anchor is not a member of the configured list, and
when a shift happens the list built is a fresh copy, previous anchor consed
onto a filtered copy of the configured list, which itself is left intact. -/
theorem buildAnchorList_front_shift (dynamicAnchors : List Anchor) (prevAnchor : Anchor)
    (hnotauto : dynamicAnchors.head? ≠ some autoAnchor) :
    (buildAnchorList dynamicAnchors (some prevAnchor)).head? = some prevAnchor ∧
    (dynamicAnchors.head? ≠ some prevAnchor →
      buildAnchorList dynamicAnchors (some prevAnchor) =
        prevAnchor :: dynamicAnchors.filter (fun a => a != prevAnchor)) := by
  constructor
  · exact buildAnchorList_head dynamicAnchors prevAnchor
  · intro hne
    simp only [buildAnchorList]
    rw [if_neg hnotauto, if_neg hne]

/-- C10 witness: previous anchor left, not a member of the configured list. -/
theorem buildAnchorList_front_shift_witness :
    (["top", "bottom"] : List Anchor).head? ≠ some autoAnchor ∧
    ((buildAnchorList ["top", "bottom"] (some ("left" : Anchor))).head? =
        some ("left" : Anchor) ∧
      ((["top", "bottom"] : List Anchor).head? ≠ some ("left" : Anchor) →
        buildAnchorList ["top", "bottom"] (some ("left" : Anchor)) =
          ("left" : Anchor) :: (["top", "bottom"] : List Anchor).filter
            (fun a => a != ("left" : Anchor)))) :=
  ⟨by decide, buildAnchorList_front_shift ["top", "bottom"] "left" (by decide)⟩

/-- C9: an attempt on the anchor value auto (possible only when auto occurs
past the first position, since a leading auto is expanded away) emits the
one time warning, returns no placement, issues no collision index query and
mutates neither the placement state nor the bucket; the anchor loop then
simply continues with the remaining candidates. -/
theorem attemptAnchorPlacement_auto_skip (env : Env) (ctx : BucketCtx)
    (dynamicAnchors : List Anchor) (ca : CollisionArrays)
    (textBox : SingleCollisionBox) (dynamicTextOffset textBoxScale : ℚ)
    (justifications : Justification → Int) (si : SymbolInstance) (w : World)
    (rest : List Anchor) :
    attemptAnchorPlacement env autoAnchor dynamicAnchors ca textBox
        dynamicTextOffset textBoxScale ctx justifications si w =
      (none, addWarning w autoAnchorWarning) ∧
    anchorLoop env ctx dynamicAnchors ca textBox dynamicTextOffset textBoxScale
        justifications si (autoAnchor :: rest) w =
      anchorLoop env ctx dynamicAnchors ca textBox dynamicTextOffset textBoxScale
        justifications si rest (addWarning w autoAnchorWarning) := by
  have h1 : attemptAnchorPlacement env autoAnchor dynamicAnchors ca textBox
      dynamicTextOffset textBoxScale ctx justifications si w =
      (none, addWarning w autoAnchorWarning) := by
    rw [attemptAnchorPlacement]
    rw [if_neg (fun h => absurd h.2.2 (by decide))]
    rw [if_pos rfl]
  refine ⟨h1, ?_⟩
  rw [anchorLoop, h1]

theorem loop1_mget (prevOpacities : List (Nat × JointOpacityState)) (increment : ℚ)
    (ps : List (Nat × JointPlacement)) (m : List (Nat × JointOpacityState))
    (changed : Bool) (k : Nat) :
    mget (commitLoop1 prevOpacities increment ps (m, changed)).1 k =
      match loop1Find prevOpacities increment ps k with
      | some v => some v
      | none => mget m k := by
  induction ps generalizing m changed with
  | nil => simp [commitLoop1, loop1Find]
  | cons p rest ih =>
    obtain ⟨ctid, jp⟩ := p
    rw [commitLoop1, ih]
    rcases hf : loop1Find prevOpacities increment rest k with _ | v
    · simp only [loop1Find, hf]
      by_cases hk : ctid = k
      · subst hk
        simp [mget, mset]
      · simp [mget, mset, hk]
    · simp [loop1Find, hf]

theorem loop2_mget_some (increment : ℚ) (pos : List (Nat × JointOpacityState))
    (acc : List (Nat × JointOpacityState) × Bool) (k : Nat)
    (v : JointOpacityState) (h : mget acc.1 k = some v) :
    mget (commitLoop2 increment pos acc).1 k = some v := by
  induction pos generalizing acc with
  | nil => simpa [commitLoop2] using h
  | cons p rest ih =>
    obtain ⟨ctid, prevOpacity⟩ := p
    rw [commitLoop2]
    rcases hcm : mget acc.1 ctid with _ | u
    · simp only [hcm]
      have hne : ctid ≠ k := by
        intro he
        rw [he, h] at hcm
        cases hcm
      by_cases hh :
          (mkJointOpacityState (some prevOpacity) increment false false false).isHidden = true
      · rw [if_pos hh]
        exact ih acc h
      · rw [if_neg hh]
        refine ih (mset acc.1 ctid _, _) ?_
        rw [mget_mset_ne _ _ _ _ hne]
        exact h
    · simp only [hcm]
      exact ih acc h

theorem loop2_mget_none (increment : ℚ) (pos : List (Nat × JointOpacityState))
    (acc : List (Nat × JointOpacityState) × Bool) (k : Nat)
    (h : mget acc.1 k = none) :
    mget (commitLoop2 increment pos acc).1 k = loop2Find increment pos k := by
  induction pos generalizing acc with
  | nil => simpa [commitLoop2, loop2Find] using h
  | cons p rest ih =>
    obtain ⟨ctid, prevOpacity⟩ := p
    rw [commitLoop2, loop2Find]
    rcases hcm : mget acc.1 ctid with _ | u
    · simp only [hcm]
      by_cases hk : ctid = k
      · by_cases hh :
            (mkJointOpacityState (some prevOpacity) increment false false false).isHidden = true
        · rw [if_pos hh, if_pos hk, if_pos hh]
          exact ih acc h
        · rw [if_neg hh, if_pos hk, if_neg hh]
          refine loop2_mget_some increment rest _ _ _ ?_
          rw [← hk]
          exact mget_mset_self acc.1 ctid _
      · by_cases hh :
            (mkJointOpacityState (some prevOpacity) increment false false false).isHidden = true
        · rw [if_pos hh, if_neg hk]
          exact ih acc h
        · rw [if_neg hh, if_neg hk]
          refine ih (mset acc.1 ctid _, _) ?_
          rw [mget_mset_ne _ _ _ _ hk]
          exact h
    · simp only [hcm]
      by_cases hk : ctid = k
      · rw [hk, h] at hcm
        cases hcm
      · rw [if_neg hk]
        exact ih acc h

theorem commit_opacities_eq (st : PlacementState) (prevPlacement : Option PrevData)
    (now : ℚ) :
    (commit st prevPlacement now).opacities =
      (commitLoop2 (commitIncrement st.fadeDuration prevPlacement now)
        (prevOpacitiesOf prevPlacement)
        (commitLoop1 (prevOpacitiesOf prevPlacement)
          (commitIncrement st.fadeDuration prevPlacement now)
          st.placements (st.opacities, false))).1 := rfl

theorem commit_placements_eq (st : PlacementState) (prevPlacement : Option PrevData)
    (now : ℚ) : (commit st prevPlacement now).placements = st.placements := rfl

theorem commit_fadeDuration_eq (st : PlacementState) (prevPlacement : Option PrevData)
    (now : ℚ) : (commit st prevPlacement now).fadeDuration = st.fadeDuration := rfl

theorem pipeline_idem (pos : List (Nat × JointOpacityState)) (inc : ℚ)
    (ps : List (Nat × JointPlacement)) (m0 : List (Nat × JointOpacityState)) (k : Nat) :
    mget (commitLoop2 inc pos (commitLoop1 pos inc ps
        ((commitLoop2 inc pos (commitLoop1 pos inc ps (m0, false))).1, false))).1 k =
      mget (commitLoop2 inc pos (commitLoop1 pos inc ps (m0, false))).1 k := by
  rcases h1 : loop1Find pos inc ps k with _ | v
  · have e2 : mget (commitLoop1 pos inc ps (m0, false)).1 k = mget m0 k := by
      rw [loop1_mget, h1]
    have e1 : mget (commitLoop1 pos inc ps
        ((commitLoop2 inc pos (commitLoop1 pos inc ps (m0, false))).1, false)).1 k =
        mget (commitLoop2 inc pos (commitLoop1 pos inc ps (m0, false))).1 k := by
      rw [loop1_mget, h1]
    rcases h2 : mget (commitLoop2 inc pos (commitLoop1 pos inc ps (m0, false))).1 k
      with _ | w
    · rw [loop2_mget_none inc pos _ k (e1.trans h2)]
      rcases h3 : mget m0 k with _ | u
      · rw [← loop2_mget_none inc pos _ k (e2.trans h3), h2]
      · exfalso
        rw [loop2_mget_some inc pos _ k u (e2.trans h3)] at h2
        cases h2
    · rw [loop2_mget_some inc pos _ k w (e1.trans h2)]
  · have e2 : mget (commitLoop1 pos inc ps (m0, false)).1 k = some v := by
      rw [loop1_mget, h1]
    have e1 : mget (commitLoop1 pos inc ps
        ((commitLoop2 inc pos (commitLoop1 pos inc ps (m0, false))).1, false)).1 k =
        some v := by
      rw [loop1_mget, h1]
    rw [loop2_mget_some inc pos _ k v e1, loop2_mget_some inc pos _ k v e2]

/-- C3: running commit a second time with the same previous placement and
the same time leaves the opacity map unchanged: every lookup agrees with
the map produced by the first commit. -/
theorem commit_opacities_idempotent (st : PlacementState)
    (prevPlacement : Option PrevData) (now : ℚ) (k : Nat) :
    mget (commit (commit st prevPlacement now) prevPlacement now).opacities k =
      mget (commit st prevPlacement now).opacities k := by
  have h := pipeline_idem (prevOpacitiesOf prevPlacement)
    (commitIncrement st.fadeDuration prevPlacement now) st.placements st.opacities k
  rw [commit_opacities_eq (commit st prevPlacement now) prevPlacement now,
    commit_placements_eq st prevPlacement now,
    commit_fadeDuration_eq st prevPlacement now,
    commit_opacities_eq st prevPlacement now]
  exact h

theorem loop1Find_none (prevOpacities : List (Nat × JointOpacityState)) (increment : ℚ)
    (ps : List (Nat × JointPlacement)) (k : Nat) (h : mget ps k = none) :
    loop1Find prevOpacities increment ps k = none := by
  induction ps with
  | nil => rfl
  | cons p rest ih =>
    obtain ⟨ctid, jp⟩ := p
    rw [loop1Find]
    have hne : ¬ctid = k := by
      intro he
      rw [mget, if_pos he] at h
      cases h
    have hrest : mget rest k = none := by
      rw [mget, if_neg hne] at h
      exact h
    rw [ih hrest, if_neg hne]

theorem loop2Find_none (increment : ℚ) (pos : List (Nat × JointOpacityState)) (k : Nat)
    (h : mget pos k = none) : loop2Find increment pos k = none := by
  induction pos with
  | nil => rfl
  | cons p rest ih =>
    obtain ⟨ctid, prevOpacity⟩ := p
    rw [loop2Find]
    have hne : ¬ctid = k := by
      intro he
      rw [mget, if_pos he] at h
      cases h
    have hrest : mget rest k = none := by
      rw [mget, if_neg hne] at h
      exact h
    rw [if_neg hne]
    exact ih hrest

theorem loop2Find_of_nodup (increment : ℚ) (pos : List (Nat × JointOpacityState))
    (k : Nat) (prevOpacity : JointOpacityState)
    (hnodup : (pos.map Prod.fst).Nodup) (h : mget pos k = some prevOpacity) :
    loop2Find increment pos k =
      (if (mkJointOpacityState (some prevOpacity) increment false false false).isHidden
       then none
       else some (mkJointOpacityState (some prevOpacity) increment false false false)) := by
  induction pos with
  | nil => cases h
  | cons p rest ih =>
    obtain ⟨ctid, v⟩ := p
    rw [loop2Find]
    by_cases hk : ctid = k
    · have hv : v = prevOpacity := by
        rw [mget, if_pos hk] at h
        cases h
        rfl
      subst hv
      rw [if_pos hk]
      have hnotin : mget rest k = none := by
        rcases hmr : mget rest k with _ | u
        · rfl
        · exfalso
          have hmem := List.mem_map_of_mem Prod.fst (mget_mem rest k u hmr)
          rw [List.map_cons, List.nodup_cons] at hnodup
          exact hnodup.1 (by simpa [hk] using hmem)
      by_cases hh :
          (mkJointOpacityState (some v) increment false false false).isHidden = true
      · rw [if_pos hh, if_pos hh, loop2Find_none increment rest k hnotin]
      · rw [if_neg hh, if_neg hh]
    · rw [if_neg hk]
      have hrest : mget rest k = some prevOpacity := by
        rw [mget, if_neg hk] at h
        exact h
      rw [List.map_cons, List.nodup_cons] at hnodup
      exact ih hnodup.2 hrest

/-- C5: a crossTileID present in the previous opacities and absent from the
current placements gets, on a fresh placement, the joint state derived from
its previous state with both placed targets false at the shared commit
increment, and that state is kept in the committed opacities exactly when
it is not fully hidden. -/
theorem commit_fadeout_retention (st : PlacementState) (prevData : PrevData)
    (now : ℚ) (c : Nat) (prevOpacity : JointOpacityState)
    (hnodup : (prevData.opacities.map Prod.fst).Nodup)
    (hprev : mget prevData.opacities c = some prevOpacity)
    (habsent : mget st.placements c = none)
    (hfresh : st.opacities = []) :
    mget (commit st (some prevData) now).opacities c =
      (if (mkJointOpacityState (some prevOpacity)
            (commitIncrement st.fadeDuration (some prevData) now)
            false false false).isHidden
       then none
       else some (mkJointOpacityState (some prevOpacity)
            (commitIncrement st.fadeDuration (some prevData) now)
            false false false)) := by
  rw [commit_opacities_eq st (some prevData) now]
  have hpo : prevOpacitiesOf (some prevData) = prevData.opacities := rfl
  have h1 : loop1Find (prevOpacitiesOf (some prevData))
      (commitIncrement st.fadeDuration (some prevData) now) st.placements c = none := by
    rw [hpo]
    exact loop1Find_none _ _ _ _ habsent
  have e1 : mget (commitLoop1 (prevOpacitiesOf (some prevData))
      (commitIncrement st.fadeDuration (some prevData) now)
      st.placements (st.opacities, false)).1 c = none := by
    rw [loop1_mget, h1, hfresh]
    rfl
  rw [loop2_mget_none _ _ _ _ e1, hpo]
  exact loop2Find_of_nodup _ _ _ _ hnodup hprev

/-- C5 witness: crossTileID 7, previous text state placed at opacity one,
fade duration 300, committed at time 1. -/
theorem commit_fadeout_retention_witness :
    (samplePrevData.opacities.map Prod.fst).Nodup ∧
    mget samplePrevData.opacities 7 = some samplePrevJoint ∧
    mget samplePlacementState.placements 7 = none ∧
    samplePlacementState.opacities = [] ∧
    mget (commit samplePlacementState (some samplePrevData) 1).opacities 7 =
      (if (mkJointOpacityState (some samplePrevJoint)
            (commitIncrement samplePlacementState.fadeDuration (some samplePrevData) 1)
            false false false).isHidden
       then none
       else some (mkJointOpacityState (some samplePrevJoint)
            (commitIncrement samplePlacementState.fadeDuration (some samplePrevData) 1)
            false false false)) :=
  ⟨by decide, by rfl, by rfl, by rfl,
   commit_fadeout_retention samplePlacementState samplePrevData 1 7 samplePrevJoint
     (by decide) (by rfl) (by rfl) (by rfl)⟩

theorem get_cross (cg : CollisionGroups) (sourceID : String)
    (h : cg.crossSourceCollisions = true) :
    CollisionGroups.get cg sourceID = (cg, ⟨0, none⟩) := by
  rw [CollisionGroups.get, if_neg (by simp [h])]

theorem get_existing (cg : CollisionGroups) (sourceID : String) (existingID : Nat)
    (h : cg.crossSourceCollisions = false)
    (hm : mget cg.collisionGroups sourceID = some existingID) :
    CollisionGroups.get cg sourceID = (cg, ⟨existingID, some existingID⟩) := by
  rw [CollisionGroups.get, if_pos h]
  simp only [hm]

theorem get_fresh (cg : CollisionGroups) (sourceID : String)
    (h : cg.crossSourceCollisions = false)
    (hm : mget cg.collisionGroups sourceID = none) :
    CollisionGroups.get cg sourceID =
      ({cg with maxGroupID := cg.maxGroupID + 1,
                collisionGroups := mset cg.collisionGroups sourceID (cg.maxGroupID + 1)},
       ⟨cg.maxGroupID + 1, some (cg.maxGroupID + 1)⟩) := by
  rw [CollisionGroups.get, if_pos h]
  simp only [hm]

theorem get_preserves_cross (cg : CollisionGroups) (sourceID : String) :
    (CollisionGroups.get cg sourceID).1.crossSourceCollisions =
      cg.crossSourceCollisions := by
  rw [CollisionGroups.get]
  by_cases h : cg.crossSourceCollisions = false
  · rw [if_pos h]
    rcases hm : mget cg.collisionGroups sourceID <;> simp [hm]
  · rw [if_neg h]

theorem runGets_cross (trace : List String) (cg : CollisionGroups) :
    (runGets cg trace).crossSourceCollisions = cg.crossSourceCollisions := by
  induction trace generalizing cg with
  | nil => rfl
  | cons s rest ih => rw [runGets, ih, get_preserves_cross]

theorem cgwf_init (b : Bool) : CGWF (CollisionGroups.init b) := by
  constructor
  · intro p hp
    cases hp
  · exact List.nodup_nil

theorem cgwf_get (cg : CollisionGroups) (sourceID : String) (hwf : CGWF cg) :
    CGWF (CollisionGroups.get cg sourceID).1 := by
  by_cases h : cg.crossSourceCollisions = false
  · rcases hm : mget cg.collisionGroups sourceID with _ | id
    · rw [get_fresh cg sourceID h hm]
      constructor
      · intro p hp
        simp only [mset] at hp
        rcases List.mem_cons.mp hp with hp | hp
        · simp [hp]
        · have hb := hwf.1 p hp
          exact ⟨hb.1, Nat.le_succ_of_le hb.2⟩
      · rw [mset, List.map_cons, List.nodup_cons]
        refine ⟨?_, hwf.2⟩
        intro hmem
        rcases List.mem_map.mp hmem with ⟨p, hp, hfs⟩
        have hb := hwf.1 p hp
        omega
    · rw [get_existing cg sourceID id h hm]
      exact hwf
  · rw [get_cross cg sourceID (by revert h; rcases cg.crossSourceCollisions <;> simp)]
    exact hwf

theorem cgwf_runGets (trace : List String) (cg : CollisionGroups) (hwf : CGWF cg) :
    CGWF (runGets cg trace) := by
  induction trace generalizing cg with
  | nil => exact hwf
  | cons s rest ih => exact ih _ (cgwf_get cg s hwf)

theorem mget_stable (trace : List String) (cg : CollisionGroups) (sourceID : String)
    (id : Nat) (h : mget cg.collisionGroups sourceID = some id) :
    mget (runGets cg trace).collisionGroups sourceID = some id := by
  induction trace generalizing cg with
  | nil => exact h
  | cons s rest ih =>
    rw [runGets]
    refine ih _ ?_
    by_cases hc : cg.crossSourceCollisions = false
    · rcases hm : mget cg.collisionGroups s with _ | id2
      · rw [get_fresh cg s hc hm]
        have hne : s ≠ sourceID := by
          intro he
          rw [he, h] at hm
          cases hm
        rw [mget_mset_ne _ _ _ _ hne]
        exact h
      · rw [get_existing cg s id2 hc hm]
        exact h
    · rw [get_cross cg s (by revert hc; rcases cg.crossSourceCollisions <;> simp)]
      exact h

theorem mget_bounds (cg : CollisionGroups) (sourceID : String) (id : Nat)
    (hwf : CGWF cg) (h : mget cg.collisionGroups sourceID = some id) :
    0 < id ∧ id ≤ cg.maxGroupID :=
  hwf.1 (sourceID, id) (mget_mem _ _ _ h)

theorem mget_get_self (cg : CollisionGroups) (sourceID : String)
    (h : cg.crossSourceCollisions = false) :
    mget (CollisionGroups.get cg sourceID).1.collisionGroups sourceID =
      some (CollisionGroups.get cg sourceID).2.ID := by
  rcases hm : mget cg.collisionGroups sourceID with _ | id
  · rw [get_fresh cg sourceID h hm]
    exact mget_mset_self _ _ _
  · rw [get_existing cg sourceID id h hm]
    exact hm

/-- C7: with cross source collisions enabled, get always yields group 0 with
no predicate and leaves the state untouched; the predicate closure accepts a
key exactly when the key carries the group id; and in the scoped mode, for
any instance reachable from a fresh CollisionGroups by get calls, get
returns a nonzero id whose predicate matches exactly that id, every later
get on the same source returns the same group for the lifetime of the
instance, and a distinct source never shares the id. -/
theorem collisionGroups_get_spec :
    (∀ (cg : CollisionGroups) (sourceID : String),
      cg.crossSourceCollisions = true →
        CollisionGroups.get cg sourceID = (cg, ⟨0, none⟩)) ∧
    (∀ groupID keyID : Nat, evalPredicate (some groupID) keyID = true ↔ keyID = groupID) ∧
    (∀ (trace : List String) (s1 s2 : String),
      (CollisionGroups.get (runGets (CollisionGroups.init false) trace) s1).2.ID ≠ 0 ∧
      (CollisionGroups.get (runGets (CollisionGroups.init false) trace) s1).2.predicate =
        some (CollisionGroups.get (runGets (CollisionGroups.init false) trace) s1).2.ID ∧
      (∀ trace2 : List String,
        CollisionGroups.get
          (runGets (CollisionGroups.get
            (runGets (CollisionGroups.init false) trace) s1).1 trace2) s1 =
        (runGets (CollisionGroups.get
            (runGets (CollisionGroups.init false) trace) s1).1 trace2,
         (CollisionGroups.get (runGets (CollisionGroups.init false) trace) s1).2)) ∧
      (s1 ≠ s2 →
        (CollisionGroups.get
          (CollisionGroups.get (runGets (CollisionGroups.init false) trace) s1).1 s2).2.ID ≠
        (CollisionGroups.get (runGets (CollisionGroups.init false) trace) s1).2.ID)) := by
  refine ⟨get_cross, ?_, ?_⟩
  · intro groupID keyID
    simp [evalPredicate]
  · intro trace s1 s2
    have hcross : (runGets (CollisionGroups.init false) trace).crossSourceCollisions = false :=
      runGets_cross trace (CollisionGroups.init false)
    have hwf : CGWF (runGets (CollisionGroups.init false) trace) :=
      cgwf_runGets trace (CollisionGroups.init false) (cgwf_init false)
    have hwf1 : CGWF (CollisionGroups.get
        (runGets (CollisionGroups.init false) trace) s1).1 :=
      cgwf_get _ s1 hwf
    have hcross1 : (CollisionGroups.get
        (runGets (CollisionGroups.init false) trace) s1).1.crossSourceCollisions = false := by
      rw [get_preserves_cross]
      exact hcross
    have hself : mget (CollisionGroups.get
        (runGets (CollisionGroups.init false) trace) s1).1.collisionGroups s1 =
        some (CollisionGroups.get (runGets (CollisionGroups.init false) trace) s1).2.ID :=
      mget_get_self _ s1 hcross
    have hbound := mget_bounds _ s1 _ hwf1 hself
    refine ⟨by omega, ?_, ?_, ?_⟩
    · rcases hm : mget (runGets (CollisionGroups.init false) trace).collisionGroups s1
        with _ | id
      · rw [get_fresh _ s1 hcross hm]
      · rw [get_existing _ s1 id hcross hm]
    · intro trace2
      have hst := mget_stable trace2 _ s1 _ hself
      have hc2 : (runGets (CollisionGroups.get
          (runGets (CollisionGroups.init false) trace) s1).1 trace2).crossSourceCollisions =
          false := by
        rw [runGets_cross]
        exact hcross1
      rw [get_existing _ s1 _ hc2 hst]
      rcases hm : mget (runGets (CollisionGroups.init false) trace).collisionGroups s1
        with _ | id
      · rw [get_fresh _ s1 hcross hm]
      · rw [get_existing _ s1 id hcross hm]
    · intro hne heq
      rcases hm2 : mget (CollisionGroups.get
          (runGets (CollisionGroups.init false) trace) s1).1.collisionGroups s2 with _ | id2
      · rw [get_fresh _ s2 hcross1 hm2] at heq
        have hle := hbound.2
        simp only at heq
        omega
      · rw [get_existing _ s2 id2 hcross1 hm2] at heq
        simp only at heq
        have p1 := mget_mem _ _ _ hself
        have p2 := mget_mem _ _ _ hm2
        have hpair := List.inj_on_of_nodup_map hwf1.2 p2 p1 (by simpa using heq)
        have : s2 = s1 := congrArg Prod.fst hpair
        exact hne this.symm

/-- C7 witness: cross source instance answers group 0 for source a; a fresh
scoped instance assigns source a a nonzero id that source b does not get. -/
theorem collisionGroups_get_spec_witness :
    (CollisionGroups.init true).crossSourceCollisions = true ∧
    CollisionGroups.get (CollisionGroups.init true) srcA =
      (CollisionGroups.init true, ⟨0, none⟩) ∧
    (evalPredicate (some 3) 3 = true ↔ (3 : Nat) = 3) ∧
    srcA ≠ srcB ∧
    (CollisionGroups.get (runGets (CollisionGroups.init false) []) srcA).2.ID ≠ 0 ∧
    (CollisionGroups.get
        (CollisionGroups.get (runGets (CollisionGroups.init false) []) srcA).1 srcB).2.ID ≠
      (CollisionGroups.get (runGets (CollisionGroups.init false) []) srcA).2.ID :=
  ⟨rfl, collisionGroups_get_spec.1 (CollisionGroups.init true) srcA rfl,
   collisionGroups_get_spec.2.1 3 3,
   by decide,
   (collisionGroups_get_spec.2.2 [] srcA srcB).1,
   (collisionGroups_get_spec.2.2 [] srcA srcB).2.2.2 (by decide)⟩

theorem placeSymbolInstance_resolved (env : Env) (ctx : BucketCtx) (w : World)
    (si : SymbolInstance) (ca : CollisionArrays) :
    (mget (placeSymbolInstance env ctx w si ca).st.placements si.crossTileID).isSome := by
  simp [placeSymbolInstance, mget_mset_self]

/-- C2: in one sweep over two buckets each holding one instance with the
same crossTileID (neither bucket holding for fade, sharing the seen set),
the first bucket marks the id seen and resolves its instance into the
placements map; the second pass computes nothing: its placements, collision
index, dynamic offsets, opacities, effect log and seen set are exactly
those left by the first pass, and its bucket is only cleared of
justReloaded. -/
theorem placeLayerBucket_dedup (env : Env) (st0 : PlacementState) (b1 b2 : Bucket)
    (log0 : EffLog) (i1 i2 : SymbolInstance) (ca1 ca2 : CollisionArrays)
    (pm1 pm2 : Nat) (sc1 sc2 tpx1 tpx2 : ℚ) (scb1 scb2 : Bool)
    (seen0 : List Nat) (c : Nat)
    (hb1 : b1.symbolInstances = [i1]) (hb1c : b1.collisionArrays = [ca1])
    (hb2 : b2.symbolInstances = [i2]) (hb2c : b2.collisionArrays = [ca2])
    (hc1 : i1.crossTileID = c) (hc2 : i2.crossTileID = c)
    (hseen : c ∉ seen0) :
    (placeTwoBucketsSweep env st0 b1 b2 log0 pm1 pm2 sc1 sc2 tpx1 tpx2
        scb1 scb2 seen0).1.2.2.2 = c :: seen0 ∧
    (mget (placeTwoBucketsSweep env st0 b1 b2 log0 pm1 pm2 sc1 sc2 tpx1 tpx2
        scb1 scb2 seen0).1.1.placements c).isSome ∧
    (placeTwoBucketsSweep env st0 b1 b2 log0 pm1 pm2 sc1 sc2 tpx1 tpx2
        scb1 scb2 seen0).2.1.placements =
      (placeTwoBucketsSweep env st0 b1 b2 log0 pm1 pm2 sc1 sc2 tpx1 tpx2
        scb1 scb2 seen0).1.1.placements ∧
    (placeTwoBucketsSweep env st0 b1 b2 log0 pm1 pm2 sc1 sc2 tpx1 tpx2
        scb1 scb2 seen0).2.1.collisionIndex =
      (placeTwoBucketsSweep env st0 b1 b2 log0 pm1 pm2 sc1 sc2 tpx1 tpx2
        scb1 scb2 seen0).1.1.collisionIndex ∧
    (placeTwoBucketsSweep env st0 b1 b2 log0 pm1 pm2 sc1 sc2 tpx1 tpx2
        scb1 scb2 seen0).2.1.dynamicOffsets =
      (placeTwoBucketsSweep env st0 b1 b2 log0 pm1 pm2 sc1 sc2 tpx1 tpx2
        scb1 scb2 seen0).1.1.dynamicOffsets ∧
    (placeTwoBucketsSweep env st0 b1 b2 log0 pm1 pm2 sc1 sc2 tpx1 tpx2
        scb1 scb2 seen0).2.1.opacities =
      (placeTwoBucketsSweep env st0 b1 b2 log0 pm1 pm2 sc1 sc2 tpx1 tpx2
        scb1 scb2 seen0).1.1.opacities ∧
    (placeTwoBucketsSweep env st0 b1 b2 log0 pm1 pm2 sc1 sc2 tpx1 tpx2
        scb1 scb2 seen0).2.2.2.1 =
      (placeTwoBucketsSweep env st0 b1 b2 log0 pm1 pm2 sc1 sc2 tpx1 tpx2
        scb1 scb2 seen0).1.2.2.1 ∧
    (placeTwoBucketsSweep env st0 b1 b2 log0 pm1 pm2 sc1 sc2 tpx1 tpx2
        scb1 scb2 seen0).2.2.2.2 =
      (placeTwoBucketsSweep env st0 b1 b2 log0 pm1 pm2 sc1 sc2 tpx1 tpx2
        scb1 scb2 seen0).1.2.2.2 ∧
    (placeTwoBucketsSweep env st0 b1 b2 log0 pm1 pm2 sc1 sc2 tpx1 tpx2
        scb1 scb2 seen0).2.2.1 = {b2 with justReloaded := false} := by
  simp [placeTwoBucketsSweep, placeLayerBucket, hb1, hb1c, hb2, hb2c,
    List.zip_cons_cons, List.zip_nil_right, placeBucketLoop, hc1, hc2, hseen]
  rw [← hc1]
  exact placeSymbolInstance_resolved env _ _ i1 ca1

/-- C2 witness: the concrete two bucket sweep with shared crossTileID 7. -/
theorem placeLayerBucket_dedup_witness :
    (sampleBucket srcA 1).symbolInstances = [sampleInstance] ∧
    (sampleBucket srcA 1).collisionArrays = [sampleCollisionArrays] ∧
    (sampleBucket srcB 2).symbolInstances = [sampleInstance] ∧
    (sampleBucket srcB 2).collisionArrays = [sampleCollisionArrays] ∧
    sampleInstance.crossTileID = 7 ∧
    (7 : Nat) ∉ ([] : List Nat) ∧
    (sampleSweep.1.2.2.2 = 7 :: [] ∧
     (mget sampleSweep.1.1.placements 7).isSome ∧
     sampleSweep.2.1.placements = sampleSweep.1.1.placements ∧
     sampleSweep.2.1.collisionIndex = sampleSweep.1.1.collisionIndex ∧
     sampleSweep.2.1.dynamicOffsets = sampleSweep.1.1.dynamicOffsets ∧
     sampleSweep.2.1.opacities = sampleSweep.1.1.opacities ∧
     sampleSweep.2.2.2.1 = sampleSweep.1.2.2.1 ∧
     sampleSweep.2.2.2.2 = sampleSweep.1.2.2.2 ∧
     sampleSweep.2.2.1 = {sampleBucket srcB 2 with justReloaded := false}) :=
  ⟨rfl, rfl, rfl, rfl, rfl, by decide,
   placeLayerBucket_dedup sampleEnv samplePlacementState (sampleBucket srcA 1)
     (sampleBucket srcB 2) sampleLog sampleInstance sampleInstance
     sampleCollisionArrays sampleCollisionArrays 0 0 1 1 1 1 false false [] 7
     rfl rfl rfl rfl rfl rfl (by decide)⟩
